import Mathlib

/-!
Verification of the dynamic edge-compute orchestrator.

The development shallowly embeds the two core source modules:
`node_simulator.py` (per-node energy model) and `llm_orchestrator.py`
(decision engine).  Python floats are modelled as rationals; the wall
clock is modelled by passing the current timestamp explicitly to the
one operation that reads it.  A JSON snapshot dictionary is modelled
as a record of optional fields (a missing key is `none`), and Python
exceptions raised inside the decision function are modelled with
`Except`.
-/

/-! ### Configuration constants (node_simulator.py, lines 8-16) -/

/-- The policy-to-power-draw table `POWER_CONSUMPTION` (watts), with the
source literals 0.00001, 0.05, 0.02, 0.15, 0.25 written as fractions. -/
def POWER_CONSUMPTION : List (String × ℚ) :=
  [("SLEEP", 1/100000),
   ("WAKE_LISTEN", 5/100),
   ("SENSE_LOW", 2/100),
   ("SENSE_HIGH", 15/100),
   ("TRANSMIT", 25/100)]

/-- Constant `HARVEST_RATE_MAX = 0.005`: max harvested watts at harvest_potential 1.0. -/
def HARVEST_RATE_MAX : ℚ := 5/1000

/-- Constant `MAX_CAPACITY`: total battery capacity in joules. -/
def MAX_CAPACITY : ℚ := 3600

/-- Python `POWER_CONSUMPTION.get(key)`: the draw of a recognized policy. -/
def powerLookup (p : String) : Option ℚ :=
  (POWER_CONSUMPTION.find? (fun kv => kv.1 == p)).map Prod.snd

/-- The `SLEEP` draw, the fallback of `POWER_CONSUMPTION.get(policy, POWER_CONSUMPTION["SLEEP"])`. -/
def sleepRate : ℚ := (powerLookup "SLEEP").getD 0

/-! ### NodeState and IoTNodeSimulator (node_simulator.py, lines 18-72) -/

/-- The dataclass `NodeState`.  `last_wake_time` is an opaque timestamp
string; the simulator field `time_step` is never read and is omitted. -/
structure NodeState where
  node_id : String
  battery_joules : ℚ
  current_policy : String
  last_wake_time : String
  harvest_potential : ℚ
  data_uncertainty : ℚ
deriving DecidableEq, Repr

/-- Constructor `IoTNodeSimulator.__init__(node_id, initial_capacity)`: builds the owned
`NodeState` with the dataclass defaults (policy SLEEP, harvest 0,
uncertainty 0.5) and `battery_joules = initial_capacity`, unvalidated.
`t0` stands for the `datetime.now()` captured at class-definition time. -/
def initSimulator (node_id : String) (initial_capacity : ℚ) (t0 : String) : NodeState :=
  { node_id := node_id
    battery_joules := initial_capacity
    current_policy := "SLEEP"
    last_wake_time := t0
    harvest_potential := 0
    data_uncertainty := 1/2 }

/-- Method `IoTNodeSimulator._calculate_power_change`: harvest minus consumption,
where consumption falls back to the SLEEP rate for an unrecognized policy. -/
def calculate_power_change (s : NodeState) : ℚ :=
  let P_consume := (powerLookup s.current_policy).getD sleepRate
  let P_harvest := s.harvest_potential * HARVEST_RATE_MAX
  P_harvest - P_consume

/-- Method `IoTNodeSimulator.update_state(duration_s)`: applies the energy delta,
clamps `battery_joules` to `[0, MAX_CAPACITY]`, and stamps `last_wake_time`
with the current time `now`. -/
def update_state (s : NodeState) (duration_s : ℚ) (now : String) : NodeState :=
  let energy_change := calculate_power_change s * duration_s
  { s with
    battery_joules := max 0 (min MAX_CAPACITY (s.battery_joules + energy_change))
    last_wake_time := now }

/-- Method `IoTNodeSimulator.set_policy(new_policy)`: replaces `current_policy`
when the argument is a key of `POWER_CONSUMPTION`; otherwise does nothing. -/
def set_policy (s : NodeState) (new_policy : String) : NodeState :=
  if (powerLookup new_policy).isSome then
    { s with current_policy := new_policy }
  else s

/-! ### Snapshot input and command output (llm_orchestrator.py) -/

/-- One parsed element of the network-state JSON array.  Each field is
optional because `simulate_llm_api_call` reads the dictionary with
`.get(key, 0)` (or, for `node_id`, with a raising `[...]` access). -/
structure Snapshot where
  node_id : Option String
  battery_percent : Option ℚ
  current_policy : Option String
  harvest_potential : Option ℚ
  data_uncertainty : Option ℚ
  max_capacity_joules : Option ℚ
deriving DecidableEq, Repr

/-- A snapshot dictionary with no keys at all; Python treats it as falsy. -/
def Snapshot.isEmptyDict (s : Snapshot) : Bool :=
  s.node_id.isNone && s.battery_percent.isNone && s.current_policy.isNone &&
  s.harvest_potential.isNone && s.data_uncertainty.isNone && s.max_capacity_joules.isNone

/-- The `bo_parameters` object of a wake command. -/
structure BoParams where
  sampling_interval_s : ℚ
  tx_power_dbm : ℚ
deriving DecidableEq, Repr

/-- The command dictionary returned by `simulate_llm_api_call`.  `action`
and `reasoning` are always present; the other keys are present exactly
when the returned dictionary contains them (`some`). -/
structure ControlCommand where
  action : String
  target_node_id : Option String
  new_policy : Option String
  bo_parameters : Option BoParams
  reasoning : String
deriving DecidableEq, Repr

/-- Constant `MIN_BATTERY_PERCENT = 20.0` (llm_orchestrator.py, line 73). -/
def MIN_BATTERY_PERCENT : ℚ := 20

/-- The action-threshold literal `0.6` of line 87. -/
def UNCERTAINTY_ACT_THRESHOLD : ℚ := 6/10

/-- The harvest-threshold literal `0.7` of line 90. -/
def HARVEST_HIGH_THRESHOLD : ℚ := 7/10

/-- A snapshot passes the battery constraint:
`node.get('battery_percent', 0) >= MIN_BATTERY_PERCENT`. -/
def batteryEligible (s : Snapshot) : Prop :=
  MIN_BATTERY_PERCENT ≤ s.battery_percent.getD 0

instance (s : Snapshot) : Decidable (batteryEligible s) :=
  inferInstanceAs (Decidable (MIN_BATTERY_PERCENT ≤ s.battery_percent.getD 0))

/-- A snapshot's uncertainty as read by the loop:
`node.get('data_uncertainty', 0)`. -/
def uncertaintyOf (s : Snapshot) : ℚ :=
  s.data_uncertainty.getD 0

/-- The candidate-selection loop of `simulate_llm_api_call`
(lines 75-84): scans the snapshots in order, keeping the running
`best_candidate` and `max_uncertainty`, updating both exactly when the
battery constraint holds and the uncertainty strictly exceeds the
running maximum. -/
def scanLoop : List Snapshot → Option Snapshot → ℚ → Option Snapshot × ℚ
  | [], best_candidate, max_uncertainty => (best_candidate, max_uncertainty)
  | node :: rest, best_candidate, max_uncertainty =>
      if batteryEligible node ∧ max_uncertainty < uncertaintyOf node then
        scanLoop rest (some node) (uncertaintyOf node)
      else
        scanLoop rest best_candidate max_uncertainty

/-- The fixed `DO_NOTHING` fallback command (lines 120-123). -/
def doNothingCommand : ControlCommand :=
  { action := "DO_NOTHING"
    target_node_id := none
    new_policy := none
    bo_parameters := none
    reasoning := "No node requires critical action. All high-uncertainty nodes are either below the 20% critical battery threshold or all uncertainty is currently acceptable." }

/-- The `reason` f-string of the high-harvest branch (lines 96-99). -/
def reasonHigh (nid : String) (mu hp : ℚ) : String :=
  nid ++ " has the highest uncertainty (" ++ toString mu ++
  ") and meets the 20.0% battery minimum. It also has high harvest potential (" ++
  toString hp ++
  "), justifying the energy-intensive SENSE_HIGH policy to rapidly meet the mission goal."

/-- The `reason` f-string of the low-harvest branch (lines 106-109). -/
def reasonLow (nid : String) (mu : ℚ) : String :=
  nid ++ " has the highest uncertainty (" ++ toString mu ++
  ") and meets the 20.0% battery minimum. We are using the energy-efficient SENSE_LOW policy due to low ambient harvest potential."

/-- The wake command built in the high-harvest branch (lines 92-99, 111-117). -/
def wakeHighCommand (nid : String) (mu hp : ℚ) : ControlCommand :=
  { action := "WAKE_NODE"
    target_node_id := some nid
    new_policy := some "SENSE_HIGH"
    bo_parameters := some { sampling_interval_s := 5, tx_power_dbm := 10 }
    reasoning := reasonHigh nid mu hp }

/-- The wake command built in the low-harvest branch (lines 100-109, 111-117). -/
def wakeLowCommand (nid : String) (mu : ℚ) : ControlCommand :=
  { action := "WAKE_NODE"
    target_node_id := some nid
    new_policy := some "SENSE_LOW"
    bo_parameters := some { sampling_interval_s := 30, tx_power_dbm := 5 }
    reasoning := reasonLow nid mu }

/-- Function `simulate_llm_api_call` (lines 61-123), after JSON parsing: selects
the candidate, and either returns the fallback `DO_NOTHING` command
(when the candidate is absent or falsy, or `max_uncertainty ≤ 0.6`) or
builds a `WAKE_NODE` command branching on the candidate's harvest
potential.  The raising accesses `best_candidate['node_id']` (both
branches) and `best_candidate['harvest_potential']` (high branch only)
surface as `Except.error` carrying the Python `KeyError` key. -/
def simulate_llm_api_call (network_state : List Snapshot) : Except String ControlCommand :=
  let scan := scanLoop network_state none (-1)
  let max_uncertainty := scan.2
  match scan.1 with
  | none => .ok doNothingCommand
  | some best_candidate =>
      if ¬ best_candidate.isEmptyDict ∧ UNCERTAINTY_ACT_THRESHOLD < max_uncertainty then
        if HARVEST_HIGH_THRESHOLD < best_candidate.harvest_potential.getD 0 then
          match best_candidate.node_id, best_candidate.harvest_potential with
          | some nid, some hp => .ok (wakeHighCommand nid max_uncertainty hp)
          | none, _ => .error "KeyError: node_id"
          | some _, none => .error "KeyError: harvest_potential"
        else
          match best_candidate.node_id with
          | some nid => .ok (wakeLowCommand nid max_uncertainty)
          | none => .error "KeyError: node_id"
      else .ok doNothingCommand

/-! ### Concrete fixtures used by witnesses and counterexamples -/

/-- An eligible snapshot with uncertainty 1, used in tie-break witnesses. -/
def wA : Snapshot := ⟨some "A", some 50, none, none, some 1, none⟩

/-- A second eligible snapshot with the same uncertainty as `wA`. -/
def wB : Snapshot := ⟨some "B", some 50, none, none, some 1, none⟩

/-- An eligible, high-harvest, high-uncertainty snapshot. -/
def w7 : Snapshot := ⟨some "N7", some 50, none, some 1, some 1, none⟩

/-- An eligible high-uncertainty snapshot that lacks the `node_id` key. -/
def noIdSnap : Snapshot := ⟨none, some 50, none, none, some 1, none⟩

/-- A snapshot carrying a `node_id`, battery 50 and uncertainty 1. -/
def namedSnap : Snapshot := ⟨some "N", some 50, none, none, some 1, none⟩

/-- A concrete node state: half-full battery, SENSE_HIGH, no harvest. -/
def s5 : NodeState := ⟨"n5", 1800, "SENSE_HIGH", "t0", 0, 0⟩

/-- A concrete node state in the default SLEEP policy. -/
def s0 : NodeState := ⟨"Node_1", 3600, "SLEEP", "t0", 0, 0⟩

/-! ### Characterization of the candidate-selection loop -/

/-- Complete characterization of `scanLoop`: either no scanned snapshot
beats the running maximum while passing the battery check (and the
accumulator survives untouched), or the final candidate is an eligible
snapshot of the list, strictly above the running maximum, strictly above
every eligible snapshot before it, and at least every eligible snapshot
after it. -/
theorem scanLoop_char (l : List Snapshot) (acc : Option Snapshot) (m : ℚ) :
    (scanLoop l acc m = (acc, m) ∧
      ∀ x ∈ l, batteryEligible x → uncertaintyOf x ≤ m) ∨
    (∃ pre c post, l = pre ++ c :: post ∧ batteryEligible c ∧ m < uncertaintyOf c ∧
      (∀ x ∈ pre, batteryEligible x → uncertaintyOf x < uncertaintyOf c) ∧
      (∀ x ∈ post, batteryEligible x → uncertaintyOf x ≤ uncertaintyOf c) ∧
      scanLoop l acc m = (some c, uncertaintyOf c)) := by
  induction l generalizing acc m with
  | nil => exact Or.inl ⟨rfl, by simp⟩
  | cons x rest ih =>
    by_cases hx : batteryEligible x ∧ m < uncertaintyOf x
    · rw [scanLoop, if_pos hx]
      rcases ih (some x) (uncertaintyOf x) with ⟨heq, hall⟩ |
        ⟨pre, c, post, hl, hc, hm, hpre, hpost, heq⟩
      · exact Or.inr ⟨[], x, rest, by simp, hx.1, hx.2, by simp, hall, heq⟩
      · refine Or.inr ⟨x :: pre, c, post, by rw [hl, List.cons_append], hc, lt_trans hx.2 hm, ?_, hpost, heq⟩
        intro y hy hey
        rcases List.mem_cons.mp hy with h | h
        · exact h ▸ hm
        · exact hpre y h hey
    · rw [scanLoop, if_neg hx]
      rcases ih acc m with ⟨heq, hall⟩ | ⟨pre, c, post, hl, hc, hm, hpre, hpost, heq⟩
      · refine Or.inl ⟨heq, ?_⟩
        intro y hy hey
        rcases List.mem_cons.mp hy with h | h
        · exact h ▸ le_of_not_lt (fun hlt => hx ⟨h ▸ hey, h ▸ hlt⟩)
        · exact hall y h hey
      · refine Or.inr ⟨x :: pre, c, post, by rw [hl, List.cons_append], hc, hm, ?_, hpost, heq⟩
        intro y hy hey
        rcases List.mem_cons.mp hy with h | h
        · exact h ▸ lt_of_le_of_lt (le_of_not_lt fun hlt => hx ⟨h ▸ hey, h ▸ hlt⟩) hm
        · exact hpre y h hey

/-- Claim C1: the candidate selected by the scan of `simulate_llm_api_call`
(when one exists) passes the battery constraint, carries the final
maximum uncertainty, strictly exceeds every eligible snapshot placed
before it in input order (so the first snapshot attaining the maximum
wins ties and is never replaced by a later equal one), and is at least
every eligible snapshot of the whole input. -/
theorem scan_first_max_wins (l : List Snapshot) (c : Snapshot) (m : ℚ)
    (h : scanLoop l none (-1) = (some c, m)) :
    batteryEligible c ∧ m = uncertaintyOf c ∧
    (∃ pre post, l = pre ++ c :: post ∧
      ∀ x ∈ pre, batteryEligible x → uncertaintyOf x < uncertaintyOf c) ∧
    (∀ x ∈ l, batteryEligible x → uncertaintyOf x ≤ uncertaintyOf c) := by
  rcases scanLoop_char l none (-1) with ⟨heq, _⟩ |
    ⟨pre, c', post, hl, hc, _, hpre, hpost, heq⟩
  · rw [heq] at h
    exact absurd (congrArg Prod.fst h) (by simp)
  · rw [heq] at h
    obtain ⟨hcc, hmm⟩ := Prod.mk.injEq .. ▸ h
    obtain rfl : c' = c := Option.some.injEq .. ▸ hcc
    refine ⟨hc, hmm.symm ▸ rfl, ⟨pre, post, hl, hpre⟩, ?_⟩
    intro x hx hex
    rw [hl] at hx
    rcases List.mem_append.mp hx with h1 | h1
    · exact le_of_lt (hpre x h1 hex)
    · rcases List.mem_cons.mp h1 with h2 | h2
      · exact h2 ▸ le_refl _
      · exact hpost x h2 hex

/-- Claim C1 witness: two battery-eligible snapshots with equal
uncertainty 1; the scan selects the first. -/
theorem scan_first_max_wins_witness :
    batteryEligible wA ∧ (1:ℚ) = uncertaintyOf wA ∧
    (∃ pre post, [wA, wB] = pre ++ wA :: post ∧
      ∀ x ∈ pre, batteryEligible x → uncertaintyOf x < uncertaintyOf wA) ∧
    (∀ x ∈ [wA, wB], batteryEligible x → uncertaintyOf x ≤ uncertaintyOf wA) :=
  scan_first_max_wins [wA, wB] wA 1 (by with_unfolding_all rfl)

/-- Claim C2: when no snapshot passes the battery constraint, or every
battery-eligible snapshot's uncertainty is at most the 0.6 action
threshold, the decision is the fixed `DO_NOTHING` command. -/
theorem threshold_gate_do_nothing (l : List Snapshot)
    (h : (∀ x ∈ l, ¬ batteryEligible x) ∨
         (∀ x ∈ l, batteryEligible x → uncertaintyOf x ≤ UNCERTAINTY_ACT_THRESHOLD)) :
    simulate_llm_api_call l = Except.ok doNothingCommand := by
  rcases scanLoop_char l none (-1) with ⟨heq, _⟩ |
    ⟨pre, c, post, hl, hc, _, _, _, heq⟩
  · simp [simulate_llm_api_call, heq]
  · have hmem : c ∈ l := by rw [hl]; exact List.mem_append_right _ (List.mem_cons_self ..)
    rcases h with hno | hle
    · exact absurd hc (hno c hmem)
    · have hnot : ¬ (¬ c.isEmptyDict ∧ UNCERTAINTY_ACT_THRESHOLD < uncertaintyOf c) :=
        fun hcontra => absurd hcontra.2 (not_lt.mpr (hle c hmem hc))
      simp only [simulate_llm_api_call, heq, if_neg hnot]

/-- Claim C2 witness: the empty snapshot sequence yields `DO_NOTHING`. -/
theorem threshold_gate_do_nothing_witness :
    simulate_llm_api_call [] = Except.ok doNothingCommand :=
  threshold_gate_do_nothing [] (Or.inl (by simp))

/-- Both clamp bounds of `update_state`, shared by several results. -/
theorem update_state_clamped (s : NodeState) (d : ℚ) (now : String) :
    0 ≤ (update_state s d now).battery_joules ∧
    (update_state s d now).battery_joules ≤ MAX_CAPACITY := by
  unfold update_state
  refine ⟨le_max_left 0 _, max_le ?_ (min_le_left _ _)⟩
  norm_num [MAX_CAPACITY]

/-- Claim C4: for every prior state, every duration (of any magnitude or
sign) and every clock value, the battery level after `update_state` lies
in `[0, MAX_CAPACITY]`. -/
theorem update_state_battery_bounds (s : NodeState) (d : ℚ) (now : String) :
    0 ≤ (update_state s d now).battery_joules ∧
    (update_state s d now).battery_joules ≤ MAX_CAPACITY :=
  update_state_clamped s d now

/-- Claim C5: when the unclamped result already lies within bounds,
`update_state` moves the battery by exactly
`(harvest_potential * HARVEST_RATE_MAX - draw) * duration_s`, where the
draw is the table entry of a recognized policy and the SLEEP rate of an
unrecognized one. -/
theorem update_state_exact_delta (s : NodeState) (d : ℚ) (now : String)
    (_hd : 0 ≤ d)
    (h0 : 0 ≤ s.battery_joules +
      (s.harvest_potential * HARVEST_RATE_MAX - (powerLookup s.current_policy).getD sleepRate) * d)
    (h1 : s.battery_joules +
      (s.harvest_potential * HARVEST_RATE_MAX - (powerLookup s.current_policy).getD sleepRate) * d
        ≤ MAX_CAPACITY) :
    (update_state s d now).battery_joules = s.battery_joules +
      (s.harvest_potential * HARVEST_RATE_MAX - (powerLookup s.current_policy).getD sleepRate) * d := by
  unfold update_state calculate_power_change
  simp only
  rw [min_eq_right h1, max_eq_right h0]

/-- Claim C5 witness: one minute of SENSE_HIGH with no harvest drains
exactly 9 joules from a half-full battery. -/
theorem update_state_exact_delta_witness :
    (update_state s5 60 "t1").battery_joules = s5.battery_joules +
      (s5.harvest_potential * HARVEST_RATE_MAX - (powerLookup s5.current_policy).getD sleepRate) * 60 :=
  update_state_exact_delta s5 60 "t1" (by decide)
    (of_decide_eq_true (by with_unfolding_all rfl))
    (of_decide_eq_true (by with_unfolding_all rfl))

/-- Claim C3: every `WAKE_NODE` command's policy and parameters are
determined solely by the selected candidate's harvest potential:
above the 0.7 threshold the command carries SENSE_HIGH with
`(5.0, 10.0)`, otherwise SENSE_LOW with `(30.0, 5.0)`. -/
theorem wake_policy_from_harvest (l : List Snapshot) (cmd : ControlCommand)
    (hok : simulate_llm_api_call l = Except.ok cmd)
    (hw : cmd.action = "WAKE_NODE") :
    ∃ c, (scanLoop l none (-1)).1 = some c ∧
      (HARVEST_HIGH_THRESHOLD < c.harvest_potential.getD 0 →
        cmd.new_policy = some "SENSE_HIGH" ∧
        cmd.bo_parameters = some ⟨5, 10⟩) ∧
      (c.harvest_potential.getD 0 ≤ HARVEST_HIGH_THRESHOLD →
        cmd.new_policy = some "SENSE_LOW" ∧
        cmd.bo_parameters = some ⟨30, 5⟩) := by
  simp only [simulate_llm_api_call] at hok
  split at hok
  · cases hok
    exact absurd hw (by simp [doNothingCommand])
  · rename_i cand heq
    split at hok
    · rename_i hcond
      split at hok
      · rename_i hharv
        split at hok
        · rename_i nid hp hnid hhp
          cases hok
          exact ⟨cand, heq, fun _ => ⟨rfl, rfl⟩,
            fun hle => absurd hharv (not_lt.mpr hle)⟩
        · cases hok
        · cases hok
      · rename_i hharv
        split at hok
        · rename_i nid hnid
          cases hok
          exact ⟨cand, heq, fun hlt => absurd hlt hharv,
            fun _ => ⟨rfl, rfl⟩⟩
        · cases hok
    · cases hok
      exact absurd hw (by simp [doNothingCommand])

/-- Claim C3 witness: a single eligible snapshot with harvest potential 1
produces SENSE_HIGH with parameters `(5, 10)`. -/
theorem wake_policy_from_harvest_witness :
    ∃ c, (scanLoop [w7] none (-1)).1 = some c ∧
      (HARVEST_HIGH_THRESHOLD < c.harvest_potential.getD 0 →
        (wakeHighCommand "N7" 1 1).new_policy = some "SENSE_HIGH" ∧
        (wakeHighCommand "N7" 1 1).bo_parameters = some ⟨5, 10⟩) ∧
      (c.harvest_potential.getD 0 ≤ HARVEST_HIGH_THRESHOLD →
        (wakeHighCommand "N7" 1 1).new_policy = some "SENSE_LOW" ∧
        (wakeHighCommand "N7" 1 1).bo_parameters = some ⟨30, 5⟩) :=
  wake_policy_from_harvest [w7] (wakeHighCommand "N7" 1 1)
    (by with_unfolding_all rfl) rfl

/-- Claim C8: in every command the decision function returns, the
optional fields `target_node_id`, `new_policy` and `bo_parameters` are
present exactly when the action is `WAKE_NODE`; under `DO_NOTHING` all
three are absent; and the action is always one of the two enumerated
strings (`action` and `reasoning` themselves are mandatory fields of
`ControlCommand` by construction). -/
theorem command_fields_present_iff_wake (l : List Snapshot) (cmd : ControlCommand)
    (hok : simulate_llm_api_call l = Except.ok cmd) :
    ((cmd.target_node_id.isSome ∧ cmd.new_policy.isSome ∧ cmd.bo_parameters.isSome) ↔
      cmd.action = "WAKE_NODE") ∧
    (cmd.action = "DO_NOTHING" →
      cmd.target_node_id = none ∧ cmd.new_policy = none ∧ cmd.bo_parameters = none) ∧
    (cmd.action = "WAKE_NODE" ∨ cmd.action = "DO_NOTHING") := by
  simp only [simulate_llm_api_call] at hok
  split at hok
  · cases hok
    refine ⟨by simp [doNothingCommand], fun _ => by simp [doNothingCommand], Or.inr rfl⟩
  · split at hok
    · split at hok
      · split at hok
        · cases hok
          exact ⟨by simp [wakeHighCommand], by simp [wakeHighCommand], Or.inl rfl⟩
        · cases hok
        · cases hok
      · split at hok
        · cases hok
          exact ⟨by simp [wakeLowCommand], by simp [wakeLowCommand], Or.inl rfl⟩
        · cases hok
    · cases hok
      refine ⟨by simp [doNothingCommand], fun _ => by simp [doNothingCommand], Or.inr rfl⟩

/-- Claim C8 witness: applied to the empty snapshot list, whose result
is the fallback `DO_NOTHING` command. -/
theorem command_fields_present_iff_wake_witness :
    ((doNothingCommand.target_node_id.isSome ∧ doNothingCommand.new_policy.isSome ∧
        doNothingCommand.bo_parameters.isSome) ↔
      doNothingCommand.action = "WAKE_NODE") ∧
    (doNothingCommand.action = "DO_NOTHING" →
      doNothingCommand.target_node_id = none ∧ doNothingCommand.new_policy = none ∧
        doNothingCommand.bo_parameters = none) ∧
    (doNothingCommand.action = "WAKE_NODE" ∨ doNothingCommand.action = "DO_NOTHING") :=
  command_fields_present_iff_wake [] doNothingCommand rfl

/-- A battery-eligible snapshot dictionary is nonempty (it holds a
`battery_percent` key), hence truthy in Python's sense. -/
theorem eligible_not_emptyDict (c : Snapshot) (h : batteryEligible c) :
    c.isEmptyDict = false := by
  rcases hb : c.battery_percent with _ | v
  · exfalso
    unfold batteryEligible at h
    rw [hb] at h
    norm_num [MIN_BATTERY_PERCENT] at h
  · simp [Snapshot.isEmptyDict, hb]

/-- Claim C6 counterexample: a well-shaped call on which the decision
function raises.  The single snapshot is battery-eligible with
uncertainty 1 but carries no `node_id` key, so building the wake
command raises a `KeyError` instead of returning a command. -/
theorem decide_raises_on_missing_node_id :
    simulate_llm_api_call [noIdSnap] = Except.error "KeyError: node_id" := by
  with_unfolding_all rfl

/-- Claim C6 as amended: the decision function never raises on a
snapshot list in which every snapshot has a `node_id` key; the three
numeric fields may still be absent (they default to 0), and the absence
of a valid candidate yields the normal `DO_NOTHING` result. -/
theorem decide_total_with_node_id (l : List Snapshot)
    (h : ∀ x ∈ l, x.node_id.isSome) :
    ∃ cmd, simulate_llm_api_call l = Except.ok cmd := by
  rcases scanLoop_char l none (-1) with ⟨heq, _⟩ |
    ⟨pre, c, post, hl, hc, _, _, _, heq⟩
  · exact ⟨doNothingCommand, by simp [simulate_llm_api_call, heq]⟩
  · have hempty : c.isEmptyDict = false := eligible_not_emptyDict c hc
    have hmem : c ∈ l := by
      rw [hl]; exact List.mem_append_right _ (List.mem_cons_self ..)
    by_cases hth : UNCERTAINTY_ACT_THRESHOLD < uncertaintyOf c
    · obtain ⟨nid, hnid⟩ := Option.isSome_iff_exists.mp (h c hmem)
      by_cases hh : HARVEST_HIGH_THRESHOLD < c.harvest_potential.getD 0
      · have hhp : ∃ v, c.harvest_potential = some v := by
          rcases hcp : c.harvest_potential with _ | v
          · rw [hcp] at hh
            norm_num [HARVEST_HIGH_THRESHOLD] at hh
          · exact ⟨v, rfl⟩
        obtain ⟨hp, hhp⟩ := hhp
        have hh2 : HARVEST_HIGH_THRESHOLD < hp := by
          rw [hhp] at hh
          exact hh
        exact ⟨wakeHighCommand nid (uncertaintyOf c) hp,
          by simp [simulate_llm_api_call, heq, hempty, hth, hh2, hnid, hhp]⟩
      · exact ⟨wakeLowCommand nid (uncertaintyOf c),
          by simp [simulate_llm_api_call, heq, hempty, hth, hh, hnid]⟩
    · exact ⟨doNothingCommand, by simp [simulate_llm_api_call, heq, hth]⟩

/-- Claim C6 (amended) witness: a list whose only snapshot has a
`node_id` key produces some command without raising. -/
theorem decide_total_with_node_id_witness :
    ∃ cmd, simulate_llm_api_call [namedSnap] = Except.ok cmd :=
  decide_total_with_node_id [namedSnap] (by simp [namedSnap])

/-- The policies recognized by `powerLookup` are exactly the five
enumerated policy strings. -/
theorem powerLookup_isSome_iff (p : String) :
    (powerLookup p).isSome ↔
      p ∈ ["SLEEP", "WAKE_LISTEN", "SENSE_LOW", "SENSE_HIGH", "TRANSMIT"] := by
  by_cases h1 : p = "SLEEP"
  · subst h1; simp [powerLookup, POWER_CONSUMPTION]
  by_cases h2 : p = "WAKE_LISTEN"
  · subst h2; simp [powerLookup, POWER_CONSUMPTION]
  by_cases h3 : p = "SENSE_LOW"
  · subst h3; simp [powerLookup, POWER_CONSUMPTION]
  by_cases h4 : p = "SENSE_HIGH"
  · subst h4; simp [powerLookup, POWER_CONSUMPTION]
  by_cases h5 : p = "TRANSMIT"
  · subst h5; simp [powerLookup, POWER_CONSUMPTION]
  have c1 : ("SLEEP" == p) = false := beq_eq_false_iff_ne.mpr (fun h => h1 h.symm)
  have c2 : ("WAKE_LISTEN" == p) = false := beq_eq_false_iff_ne.mpr (fun h => h2 h.symm)
  have c3 : ("SENSE_LOW" == p) = false := beq_eq_false_iff_ne.mpr (fun h => h3 h.symm)
  have c4 : ("SENSE_HIGH" == p) = false := beq_eq_false_iff_ne.mpr (fun h => h4 h.symm)
  have c5 : ("TRANSMIT" == p) = false := beq_eq_false_iff_ne.mpr (fun h => h5 h.symm)
  simp [powerLookup, POWER_CONSUMPTION, List.find?_cons, c1, c2, c3, c4, c5, h1, h2, h3, h4, h5]

/-- Claim C7: `set_policy` replaces `current_policy` when the argument
belongs to the enumerated policy set and is a silent no-op (the whole
state unchanged) otherwise. -/
theorem set_policy_enum_membership (s : NodeState) (p : String) :
    (p ∈ ["SLEEP", "WAKE_LISTEN", "SENSE_LOW", "SENSE_HIGH", "TRANSMIT"] →
      set_policy s p = { s with current_policy := p }) ∧
    (p ∉ ["SLEEP", "WAKE_LISTEN", "SENSE_LOW", "SENSE_HIGH", "TRANSMIT"] →
      set_policy s p = s) := by
  constructor
  · intro hp
    unfold set_policy
    rw [if_pos ((powerLookup_isSome_iff p).mpr hp)]
  · intro hp
    unfold set_policy
    rw [if_neg (fun hs => hp ((powerLookup_isSome_iff p).mp hs))]

/-- Claim C7 witness: "TRANSMIT" is applied, "BOGUS" is silently ignored. -/
theorem set_policy_enum_membership_witness :
    set_policy s0 "TRANSMIT" = { s0 with current_policy := "TRANSMIT" } ∧
    set_policy s0 "BOGUS" = s0 :=
  ⟨(set_policy_enum_membership s0 "TRANSMIT").1 (by simp),
   (set_policy_enum_membership s0 "BOGUS").2 (by simp)⟩

/-- Claim C9 counterexample: `set_policy` is a mutating operation (here
it changes `current_policy` from SLEEP to TRANSMIT) yet it leaves the
timestamp field untouched, so not every mutating operation updates
`last_update_time`. -/
theorem set_policy_mutates_without_timestamp :
    set_policy s0 "TRANSMIT" ≠ s0 ∧
    (set_policy s0 "TRANSMIT").last_wake_time = s0.last_wake_time := by
  have h1 : set_policy s0 "TRANSMIT" = { s0 with current_policy := "TRANSMIT" } := by
    with_unfolding_all rfl
  refine ⟨?_, by rw [h1]⟩
  rw [h1]
  intro h
  have h2 := congrArg NodeState.current_policy h
  simp [s0] at h2

/-- Claim C9 as amended: only `update_state` stamps the timestamp with
the current time; `set_policy` always leaves `last_wake_time` exactly
as it was. -/
theorem last_wake_time_update_behavior :
    (∀ s d now, (update_state s d now).last_wake_time = now) ∧
    (∀ s p, (set_policy s p).last_wake_time = s.last_wake_time) := by
  refine ⟨fun s d now => rfl, fun s p => ?_⟩
  unfold set_policy
  split <;> rfl

/-- Claim C10: the constructor stores `initial_capacity` verbatim, so a
node can start below 0 or above `MAX_CAPACITY`; the `[0, MAX_CAPACITY]`
bound is only established by the first `update_state` call. -/
theorem init_battery_unclamped :
    (∀ nid c t0, (initSimulator nid c t0).battery_joules = c) ∧
    (initSimulator "n" (-5) "t0").battery_joules < 0 ∧
    MAX_CAPACITY < (initSimulator "n" 4000 "t0").battery_joules ∧
    (∀ d now, 0 ≤ (update_state (initSimulator "n" (-5) "t0") d now).battery_joules ∧
      (update_state (initSimulator "n" (-5) "t0") d now).battery_joules ≤ MAX_CAPACITY) :=
  ⟨fun _ _ _ => rfl,
   of_decide_eq_true (by with_unfolding_all rfl),
   of_decide_eq_true (by with_unfolding_all rfl),
   fun d now => update_state_clamped _ d now⟩
